import Mathlib

/-!
Shallow embedding of the quantum-simulation component
(`src/components/QuantumSimulation.tsx` and its earlier revision in
`unnamed/part_000`).

JavaScript numbers are modelled as exact rationals (`ℚ`).  Calls to
`Math.random()` (and, for the interaction-probability readout, the value of
`Math.sin`) are nondeterministic or transcendental library inputs; they are
passed to the embedded functions as explicit parameters.  The transmission
probability of the tunneling overlay uses the real exponential and is
modelled over `ℝ`.
-/

set_option autoImplicit false

namespace QuantumSim

/-- The IEEE-754 double value of `Math.PI`, as an exact rational
(`0x400921FB54442D18` = 7074237752028440 × 2⁻⁵¹). -/
def jsMathPi : ℚ := 884279719003555 / 281474976710656

/-- `interface QuantumObject` from the source: identity, position, wave
parameters, entanglement flag and optional partner id, teleport flag. -/
structure QuantumObject where
  id : String
  x : ℚ
  y : ℚ
  frequency : ℚ
  phase : ℚ
  amplitude : ℚ
  isEntangled : Bool
  entangledWith : Option String
  isTeleporting : Bool
deriving DecidableEq

/-- `interface Measurement` from the source: `(timestamp, value, type)`.
The `type` field stores the active experiment mode. -/
structure Measurement where
  timestamp : ℚ
  value : ℚ
  type : String
deriving DecidableEq

/-- `type ExperimentMode = 'teleportation' | 'interference' | 'tunneling' |
'superposition'`. -/
inductive ExperimentMode where
  | teleportation
  | interference
  | tunneling
  | superposition
deriving DecidableEq

/-- The string value of an `ExperimentMode`, as stored in `Measurement.type`. -/
def ExperimentMode.name : ExperimentMode → String
  | .teleportation => "teleportation"
  | .interference => "interference"
  | .tunneling => "tunneling"
  | .superposition => "superposition"

/-- First seeded object of the initial `objects` state (`obj1`). -/
def obj1Seed : QuantumObject :=
  { id := "obj1", x := 150, y := 200, frequency := 2, phase := 0,
    amplitude := 50, isEntangled := true, entangledWith := some "obj2",
    isTeleporting := false }

/-- Second seeded object of the initial `objects` state (`obj2`);
its phase is `Math.PI`. -/
def obj2Seed : QuantumObject :=
  { id := "obj2", x := 550, y := 300, frequency := 2, phase := jsMathPi,
    amplitude := 50, isEntangled := true, entangledWith := some "obj1",
    isTeleporting := false }

/-- The initial object registry (also restored by `resetExperiment`). -/
def initialObjects : List QuantumObject := [obj1Seed, obj2Seed]

/-- JavaScript's `.map((element, index) => ...)`: map with the element index. -/
def mapWithIndex {α β : Type} (f : Nat → α → β) : Nat → List α → List β
  | _, [] => []
  | i, a :: as => f i a :: mapWithIndex f (i + 1) as

/-- The pending phase of `handleTeleport`:
`prev.map((obj, index) => index < 2 ? { ...obj, isTeleporting: true } : obj)`. -/
def teleportPending (objs : List QuantumObject) : List QuantumObject :=
  mapWithIndex
    (fun i obj => if i < 2 then { obj with isTeleporting := true } else obj)
    0 objs

/-- The deferred commit of `handleTeleport` (the `setTimeout` body): copies
the list, swaps the positions of the first two objects and clears both
`isTeleporting` flags.  The commit is only ever scheduled when at least two
objects are registered (the guard in `handleTeleport`), so the shorter-list
branch is never reached by the scheduled task. -/
def teleportCommit : List QuantumObject → List QuantumObject
  | o0 :: o1 :: rest =>
      { o0 with x := o1.x, y := o1.y, isTeleporting := false } ::
      { o1 with x := o0.x, y := o0.y, isTeleporting := false } :: rest
  | l => l

/-- The fixed real-time delay (ms) of the `setTimeout` in `handleTeleport`. -/
def teleportDelayMs : Nat := 800

/-- `handleTeleport`: no-op when fewer than two objects are registered;
otherwise applies the pending phase immediately and schedules the commit
after `teleportDelayMs` milliseconds.  The second component records the
scheduled deferred commit (`none` = nothing scheduled). -/
def handleTeleport (objs : List QuantumObject) :
    List QuantumObject × Option Nat :=
  if objs.length < 2 then (objs, none)
  else (teleportPending objs, some teleportDelayMs)

/-- The new object built by `handleCanvasClick` / `onTouchStart` at
canvas-logical coordinates `(x, y)`.  `r1 r2 r3` are the three
`Math.random()` draws (frequency, phase, amplitude) and `now` is
`Date.now()` (used for the id). -/
def newTapObject (x y r1 r2 r3 : ℚ) (now : Nat) : QuantumObject :=
  { id := "obj" ++ toString now, x := x, y := y,
    frequency := 1.5 + r1 * 3, phase := r2 * jsMathPi * 2,
    amplitude := 40 + r3 * 20, isEntangled := false, entangledWith := none,
    isTeleporting := false }

/-- `handleCanvasClick` (and the identical `onTouchStart` branch) after the
client-to-canvas coordinate mapping: in teleportation mode appends a new
unentangled object at `(x, y)`; in every other mode does nothing. -/
def handleCanvasClick (mode : ExperimentMode) (objs : List QuantumObject)
    (x y r1 r2 r3 : ℚ) (now : Nat) : List QuantumObject :=
  if mode = ExperimentMode.teleportation then
    objs ++ [newTapObject x y r1 r2 r3 now]
  else objs

/-- `addQuantumObject`: appends an object with random position and wave
parameters (the five `Math.random()` draws are `r1 … r5`). -/
def addQuantumObject (objs : List QuantumObject) (r1 r2 r3 r4 r5 : ℚ) :
    List QuantumObject :=
  objs ++
    [{ id := "obj" ++ toString (objs.length + 1),
       x := r1 * 600 + 100, y := r2 * 400 + 100,
       frequency := 1.5 + r3 * 3, phase := r4 * jsMathPi * 2,
       amplitude := 40 + r5 * 20, isEntangled := false,
       entangledWith := none, isTeleporting := false }]

/-- `toggleEntanglement(objId)`: flips `isEntangled` on exactly the targeted
object; the partner's flag and back-reference are untouched. -/
def toggleEntanglement (objs : List QuantumObject) (objId : String) :
    List QuantumObject :=
  objs.map fun obj =>
    if obj.id = objId then { obj with isEntangled := !obj.isEntangled }
    else obj

/-- `updateFrequency`: sets the frequency of the currently selected object. -/
def updateFrequency (objs : List QuantumObject) (selectedId : String)
    (v : ℚ) : List QuantumObject :=
  objs.map fun obj =>
    if obj.id = selectedId then { obj with frequency := v } else obj

/-- Whether the render loop draws an entanglement link between the objects at
positions `i` and `j` of the registry.  The loop in `render` visits each pair
`i < j` and calls `drawEntanglementLink` when
`objects[i].entangledWith === objects[j].id`; `drawEntanglementLink` itself
returns without drawing unless both `isEntangled` flags are set. -/
def linkDrawn (objs : List QuantumObject) (i j : Nat) : Bool :=
  match objs[i]?, objs[j]? with
  | some oi, some oj =>
      decide (i < j) && (oi.entangledWith == some oj.id) &&
        oi.isEntangled && oj.isEntangled
  | _, _ => false

/-- JavaScript's remainder `a % b` as used on `time % 10`.  JS `%` truncates
the quotient toward zero; simulation time and the modulus are nonnegative in
every use, where truncation agrees with the floor used here. -/
def jsMod (a b : ℚ) : ℚ := a - b * (⌊a / b⌋ : ℤ)

/-- The trailing-window append of the measurement log:
`[...prev.slice(-19), newMeasurement]`.  `slice(-19)` keeps the most recent
19 entries (all of them when there are at most 19). -/
def appendMeasurement (log : List Measurement) (m : Measurement) :
    List Measurement :=
  log.drop (log.length - 19) ++ [m]

/-- The React state of the component that the core simulation reads or
writes (UI chrome — selection, notifications, audio, tutorial — is out of
scope per the spec). -/
structure SimState where
  isRunning : Bool
  objects : List QuantumObject
  time : ℚ
  fieldIntensity : ℚ
  waveSpeed : ℚ
  barrierHeight : ℚ
  particleCount : ℚ
  showInterference : Bool
  measurementMode : Bool
  measurements : List Measurement
  experimentMode : ExperimentMode
  interactionProbability : ℚ
deriving DecidableEq

/-- The initial React state (`useState` initializers). -/
def initState : SimState :=
  { isRunning := true, objects := initialObjects, time := 0,
    fieldIntensity := 0.5, waveSpeed := 1, barrierHeight := 50,
    particleCount := 20, showInterference := true,
    measurementMode := false, measurements := [],
    experimentMode := ExperimentMode.teleportation,
    interactionProbability := 0 }

/-- The state updates performed by `render` (the canvas drawing itself is a
pure function of the inputs and mutates nothing): the measurement append,
gated on `measurementMode && time % 10 < 0.02`, and the
interaction-probability recompute.  `rand` is the `Math.random()` draw for
the measurement value; `sinv` is the library value `Math.sin(time * 0.1)`. -/
def renderUpdate (s : SimState) (rand sinv : ℚ) : SimState :=
  let newMeasurement : Measurement :=
    ⟨s.time, rand * s.fieldIntensity, s.experimentMode.name⟩
  let s1 :=
    if s.measurementMode ∧ jsMod s.time 10 < 0.02 then
      { s with measurements := appendMeasurement s.measurements newMeasurement }
    else s
  { s1 with interactionProbability := sinv * 0.5 + 0.5 }

/-- One invocation of `animate`: returns immediately while paused; otherwise
advances simulation time by `0.02 * waveSpeed` and runs `render`.  The
`render` closure executed in the same pass reads the pre-update `time`
(React state updates are applied on the next render pass), so the
measurement cadence and timestamp use the old time. -/
def animateTick (s : SimState) (rand sinv : ℚ) : SimState :=
  if s.isRunning then
    { renderUpdate s rand sinv with time := s.time + 0.02 * s.waveSpeed }
  else s

/-- `resetExperiment`: restores the seeded objects, clears the measurement
log and zeroes simulation time. -/
def resetExperiment (s : SimState) : SimState :=
  { s with objects := initialObjects, measurements := [], time := 0 }

/-- The user- or scheduler-driven events that mutate the modelled state.
Rational parameters carry the `Math.random()` / `Math.sin` library values
consumed by the handler; `teleportFire` is the deferred commit whose
scheduling is described by `handleTeleport`. -/
inductive Event where
  | tick (rand sinv : ℚ)
  | toggleRunning
  | toggleShowInterference
  | toggleMeasurementMode
  | reset
  | setMode (m : ExperimentMode)
  | runInterference
  | addObject (r1 r2 r3 r4 r5 : ℚ)
  | canvasTap (x y r1 r2 r3 : ℚ) (now : Nat)
  | toggleEntangled (objId : String)
  | setFrequency (objId : String) (v : ℚ)
  | setFieldIntensity (v : ℚ)
  | setWaveSpeed (v : ℚ)
  | setBarrierHeight (v : ℚ)
  | setParticleCount (v : ℚ)
  | teleportStart
  | teleportFire

/-- Slider-range constraints on event parameters, from the `Slider` bounds
in the component markup. -/
def validEvent : Event → Bool
  | .setFieldIntensity v => decide (0.1 ≤ v ∧ v ≤ 1)
  | .setWaveSpeed v => decide (0.1 ≤ v ∧ v ≤ 3)
  | .setBarrierHeight v => decide (10 ≤ v ∧ v ≤ 100)
  | .setParticleCount v => decide (5 ≤ v ∧ v ≤ 50)
  | .setFrequency _ v => decide (0.5 ≤ v ∧ v ≤ 5)
  | _ => true

/-- The effect of one event on the state, each case translated from the
corresponding handler in the source. -/
def applyEvent (s : SimState) : Event → SimState
  | .tick rand sinv => animateTick s rand sinv
  | .toggleRunning => { s with isRunning := !s.isRunning }
  | .toggleShowInterference =>
      { s with showInterference := !s.showInterference }
  | .toggleMeasurementMode =>
      { s with measurementMode := !s.measurementMode }
  | .reset => resetExperiment s
  | .setMode m => { s with experimentMode := m }
  | .runInterference => { s with showInterference := true }
  | .addObject r1 r2 r3 r4 r5 =>
      { s with objects := addQuantumObject s.objects r1 r2 r3 r4 r5 }
  | .canvasTap x y r1 r2 r3 now =>
      { s with objects :=
          handleCanvasClick s.experimentMode s.objects x y r1 r2 r3 now }
  | .toggleEntangled objId =>
      { s with objects := toggleEntanglement s.objects objId }
  | .setFrequency objId v =>
      { s with objects := updateFrequency s.objects objId v }
  | .setFieldIntensity v => { s with fieldIntensity := v }
  | .setWaveSpeed v => { s with waveSpeed := v }
  | .setBarrierHeight v => { s with barrierHeight := v }
  | .setParticleCount v => { s with particleCount := v }
  | .teleportStart => { s with objects := (handleTeleport s.objects).1 }
  | .teleportFire => { s with objects := teleportCommit s.objects }

/-- Run a sequence of events from a state. -/
def runEvents (s : SimState) : List Event → SimState
  | [] => s
  | e :: es => runEvents (applyEvent s e) es

/-- The transmission probability computed by `drawTunnelingBarrier`:
`Math.exp(-barrierHeight[0] * 0.1)`. -/
noncomputable def drawTunnelingProb (b : ℚ) : ℝ :=
  Real.exp (-((b : ℝ) * 0.1))

/-- The probability embedded in the message emitted by `runExperiment` in
tunneling mode: `Math.exp(-barrierHeight[0] * 0.1)` (displayed ×100 as a
percentage). -/
noncomputable def runExperimentTunnelingProb (b : ℚ) : ℝ :=
  Real.exp (-((b : ℝ) * 0.1))

/-- A one-directionally entangled pair: `oneWayA` references `oneWayB`, but
`oneWayB` has no back-reference. -/
def oneWayA : QuantumObject :=
  { id := "a", x := 0, y := 0, frequency := 1, phase := 0, amplitude := 40,
    isEntangled := true, entangledWith := some "b", isTeleporting := false }

/-- Partner of `oneWayA` with `entangledWith` unset. -/
def oneWayB : QuantumObject :=
  { id := "b", x := 100, y := 0, frequency := 1, phase := 0, amplitude := 40,
    isEntangled := true, entangledWith := none, isTeleporting := false }

/-! ### Helper lemmas -/

theorem jsMod_of_nonneg_of_lt {a b : ℚ} (h0 : 0 ≤ a) (hab : a < b) :
    jsMod a b = a := by
  have hb : 0 < b := lt_of_le_of_lt h0 hab
  have hfloor : ⌊a / b⌋ = 0 := by
    rw [Int.floor_eq_zero_iff]
    constructor
    · exact div_nonneg h0 hb.le
    · exact (div_lt_one hb).mpr hab
  rw [jsMod, hfloor]
  push_cast
  ring

theorem renderUpdate_due {s : SimState} (rand sinv : ℚ)
    (h1 : s.measurementMode = true) (h2 : jsMod s.time 10 < 0.02) :
    renderUpdate s rand sinv =
      { s with
        measurements := appendMeasurement s.measurements
          ⟨s.time, rand * s.fieldIntensity, s.experimentMode.name⟩,
        interactionProbability := sinv * 0.5 + 0.5 } := by
  simp only [renderUpdate]
  rw [if_pos ⟨h1, h2⟩]

theorem renderUpdate_not_due {s : SimState} (rand sinv : ℚ)
    (h : ¬(s.measurementMode = true ∧ jsMod s.time 10 < 0.02)) :
    renderUpdate s rand sinv =
      { s with interactionProbability := sinv * 0.5 + 0.5 } := by
  simp only [renderUpdate]
  rw [if_neg h]

theorem animateTick_running {s : SimState} (rand sinv : ℚ)
    (hr : s.isRunning = true) :
    animateTick s rand sinv =
      { renderUpdate s rand sinv with time := s.time + 0.02 * s.waveSpeed } := by
  rw [animateTick, if_pos hr]

theorem animateTick_paused {s : SimState} (rand sinv : ℚ)
    (hr : s.isRunning = false) :
    animateTick s rand sinv = s := by
  rw [animateTick, if_neg (by simp [hr])]

theorem mapWithIndex_teleport_id (l : List QuantumObject) :
    ∀ i, 2 ≤ i →
      mapWithIndex
        (fun i obj =>
          if i < 2 then { obj with isTeleporting := true } else obj) i l = l := by
  induction l with
  | nil => intro i _; rfl
  | cons a l ih =>
      intro i hi
      rw [mapWithIndex, if_neg (by omega), ih (i + 1) (by omega)]

theorem teleportPending_cons_cons (o0 o1 : QuantumObject)
    (rest : List QuantumObject) :
    teleportPending (o0 :: o1 :: rest) =
      { o0 with isTeleporting := true } ::
      { o1 with isTeleporting := true } :: rest := by
  rw [teleportPending, mapWithIndex, mapWithIndex,
    mapWithIndex_teleport_id rest 2 (by omega)]
  rfl

theorem appendMeasurement_length (log : List Measurement) (m : Measurement) :
    (appendMeasurement log m).length ≤ 20 := by
  simp [appendMeasurement]
  omega

theorem appendMeasurement_mem {log : List Measurement} {m x : Measurement}
    (hx : x ∈ appendMeasurement log m) : x ∈ log ∨ x = m := by
  rw [appendMeasurement] at hx
  rcases List.mem_append.mp hx with h | h
  · exact Or.inl ((List.drop_sublist _ _).subset h)
  · simp at h
    exact Or.inr h

theorem appendMeasurement_pairwise {log : List Measurement} {m : Measurement}
    (hp : log.Pairwise (fun a b => a.timestamp < b.timestamp))
    (hlt : ∀ x ∈ log, x.timestamp < m.timestamp) :
    (appendMeasurement log m).Pairwise
      (fun a b => a.timestamp < b.timestamp) := by
  rw [appendMeasurement]
  apply List.pairwise_append.mpr
  refine ⟨hp.sublist (List.drop_sublist _ _), by simp, ?_⟩
  intro a ha b hb
  rw [List.mem_singleton] at hb
  subst hb
  exact hlt a ((List.drop_sublist _ _).subset ha)

/-- The measurement-log invariant maintained by every reachable state: the
wave-speed slider is positive, the log holds at most 20 entries, the entries
are strictly ascending in timestamp, and every entry was stamped strictly
before the current simulated time. -/
def LogInv (s : SimState) : Prop :=
  0 < s.waveSpeed ∧
  s.measurements.length ≤ 20 ∧
  s.measurements.Pairwise (fun a b => a.timestamp < b.timestamp) ∧
  ∀ m ∈ s.measurements, m.timestamp < s.time

theorem logInv_initState : LogInv initState := by
  refine ⟨by norm_num [initState], by simp [initState], by simp [initState],
    by simp [initState]⟩

theorem logInv_applyEvent {s : SimState} {e : Event}
    (hv : validEvent e = true) (h : LogInv s) : LogInv (applyEvent s e) := by
  obtain ⟨hw, hlen, hpair, hts⟩ := h
  cases e
  case tick rand sinv =>
    show LogInv (animateTick s rand sinv)
    by_cases hr : s.isRunning = true
    · rw [animateTick_running rand sinv hr]
      have hdelta : s.time < s.time + 0.02 * s.waveSpeed := by
        have : (0 : ℚ) < 0.02 * s.waveSpeed := by positivity
        linarith
      by_cases hd : s.measurementMode = true ∧ jsMod s.time 10 < 0.02
      · rw [renderUpdate_due rand sinv hd.1 hd.2]
        refine ⟨hw, appendMeasurement_length _ _, ?_, ?_⟩
        · exact appendMeasurement_pairwise hpair hts
        · intro m hm
          rcases appendMeasurement_mem hm with hmem | heq
          · exact lt_trans (hts m hmem) hdelta
          · rw [heq]
            exact hdelta
      · rw [renderUpdate_not_due rand sinv hd]
        refine ⟨hw, hlen, hpair, ?_⟩
        intro m hm
        exact lt_trans (hts m hm) hdelta
    · rw [animateTick_paused rand sinv (by simpa using hr)]
      exact ⟨hw, hlen, hpair, hts⟩
  case reset =>
    exact ⟨hw, show List.length [] ≤ 20 by simp, List.Pairwise.nil,
      fun m hm => absurd hm (List.not_mem_nil m)⟩
  case setWaveSpeed v =>
    have hv01 : (0.1 : ℚ) ≤ v := (of_decide_eq_true hv).1
    exact ⟨show (0 : ℚ) < v by linarith, hlen, hpair, hts⟩
  all_goals exact ⟨hw, hlen, hpair, hts⟩

theorem logInv_runEvents :
    ∀ (tr : List Event) (s : SimState),
      (∀ e ∈ tr, validEvent e = true) → LogInv s → LogInv (runEvents s tr) := by
  intro tr
  induction tr with
  | nil => intro s _ h; exact h
  | cons e es ih =>
      intro s hv h
      exact ih _ (fun x hx => hv x (List.mem_cons_of_mem _ hx))
        (logInv_applyEvent (hv e (List.mem_cons_self _ _)) h)

/-! ### Claim theorems -/

/-- Claim C1, counterexample: with `oneWayA` before `oneWayB` in the
registry, only the forward reference `oneWayA.entangledWith = "b"` is set
(`oneWayB` has no back-reference), both `isEntangled` flags are true, and
the render loop nevertheless draws the entanglement link — refuting that a
mutual reference is required for a link to be drawn. -/
theorem entanglementLink_drawn_without_mutual_reference :
    linkDrawn [oneWayA, oneWayB] 0 1 = true ∧
    oneWayB.entangledWith ≠ some oneWayA.id ∧
    oneWayA.isEntangled = true ∧ oneWayB.isEntangled = true := by
  refine ⟨rfl, by decide, rfl, rfl⟩

/-- Claim C1, amended: the render loop draws the link for the pair `(i, j)`,
`i < j` in registry order, iff the earlier object references the later one
(`objects[i].entangledWith = objects[j].id`) and both `isEntangled` flags
are true.  The back-reference from `objects[j]` is never examined, so a link
is drawn when only the forward direction is set, and no link is drawn when
only the backward direction is set. -/
theorem entanglementLink_drawn_iff (objs : List QuantumObject) (i j : Nat) :
    linkDrawn objs i j = true ↔
      i < j ∧ ∃ oi oj, objs[i]? = some oi ∧ objs[j]? = some oj ∧
        oi.entangledWith = some oj.id ∧ oi.isEntangled = true ∧
        oj.isEntangled = true := by
  rcases hi : objs[i]? with _ | oi <;> rcases hj : objs[j]? with _ | oj <;>
    simp [linkDrawn, hi, hj, Bool.and_eq_true, decide_eq_true_iff, and_assoc]

/-- Claim C2, counterexample: in a state with measurement mode active at
`time = 0` (the cadence condition `0 % 10 < 0.02` holds), running the
per-frame state update twice with identical inputs leaves a different state
than running it once — the second call appends a second measurement, so the
renderer's invocation is not idempotent on the observable state. -/
theorem render_twice_differs_from_once :
    renderUpdate
        (renderUpdate { initState with measurementMode := true } 0 0) 0 0 ≠
      renderUpdate { initState with measurementMode := true } 0 0 := by
  have hdue : jsMod ({ initState with measurementMode := true } :
      SimState).time 10 < 0.02 := by
    rw [show ({ initState with measurementMode := true } :
      SimState).time = 0 from rfl, jsMod_of_nonneg_of_lt le_rfl (by norm_num)]
    norm_num
  have e1 := renderUpdate_due (s := { initState with measurementMode := true })
    0 0 rfl hdue
  have hmm1 : (renderUpdate { initState with measurementMode := true }
      0 0).measurementMode = true := by rw [e1]
  have htime1 : (renderUpdate { initState with measurementMode := true }
      0 0).time = 0 := by
    rw [e1]
    rfl
  have hdue1 : jsMod (renderUpdate { initState with measurementMode := true }
      0 0).time 10 < 0.02 := by
    rw [htime1, jsMod_of_nonneg_of_lt le_rfl (by norm_num)]
    norm_num
  have e2 := renderUpdate_due
    (s := renderUpdate { initState with measurementMode := true } 0 0)
    0 0 hmm1 hdue1
  have hlen1 : (renderUpdate { initState with measurementMode := true }
      0 0).measurements.length = 1 := by
    rw [e1]
    simp [appendMeasurement, initState]
  have hlen2 : (renderUpdate
      (renderUpdate { initState with measurementMode := true } 0 0)
      0 0).measurements.length = 2 := by
    rw [e2]
    show (appendMeasurement _ _).length = 2
    simp [appendMeasurement, List.length_append, List.length_drop, hlen1]
  intro hcontra
  rw [hcontra, hlen1] at hlen2
  exact absurd hlen2 (by decide)

/-- Claim C2, amended: the canvas drawing of `render` is a pure function of
its inputs, and the only state the renderer accumulates across calls is the
measurement log: when measurement mode is inactive or the simulated-time
cadence `time % 10 < 0.02` does not hold, invoking the per-frame state
update twice with identical inputs leaves exactly the state of a single
invocation; when the cadence fires, each invocation appends one measurement
`(time, random · fieldIntensity, mode)` to the trailing log (so the state
after the second call differs from the state after the first). -/
theorem render_idempotent_unless_measurement_due (s : SimState)
    (rand sinv : ℚ) :
    (¬(s.measurementMode = true ∧ jsMod s.time 10 < 0.02) →
      renderUpdate (renderUpdate s rand sinv) rand sinv =
        renderUpdate s rand sinv) ∧
    (s.measurementMode = true → jsMod s.time 10 < 0.02 →
      (renderUpdate s rand sinv).measurements =
        appendMeasurement s.measurements
          ⟨s.time, rand * s.fieldIntensity, s.experimentMode.name⟩) := by
  constructor
  · intro h
    rw [renderUpdate_not_due rand sinv h,
      renderUpdate_not_due
        (s := { s with interactionProbability := sinv * 0.5 + 0.5 })
        rand sinv h]
  · intro h1 h2
    rw [renderUpdate_due rand sinv h1 h2]

/-- Witness for the amended C2 theorem at the initial state (measurement
mode inactive). -/
theorem render_idempotent_unless_measurement_due_witness :
    renderUpdate (renderUpdate initState 0 0) 0 0 =
      renderUpdate initState 0 0 :=
  (render_idempotent_unless_measurement_due initState 0 0).1
    (fun hc => by simpa [initState] using hc.1)

/-- Claim C3, counterexample: activate measurement mode, tick once at
`time = 0` (a measurement is appended), then deactivate measurement mode.
The resulting reachable state has measurement mode inactive and a non-empty
measurement log, refuting that the log is empty whenever measurement mode is
inactive. -/
theorem measurement_log_survives_deactivation :
    (runEvents initState [Event.toggleMeasurementMode, Event.tick 0 0,
        Event.toggleMeasurementMode]).measurementMode = false ∧
    (runEvents initState [Event.toggleMeasurementMode, Event.tick 0 0,
        Event.toggleMeasurementMode]).measurements ≠ [] := by
  have hdue : jsMod ({ initState with measurementMode := true } :
      SimState).time 10 < 0.02 := by
    rw [show ({ initState with measurementMode := true } :
      SimState).time = 0 from rfl, jsMod_of_nonneg_of_lt le_rfl (by norm_num)]
    norm_num
  have key : runEvents initState [Event.toggleMeasurementMode,
      Event.tick 0 0, Event.toggleMeasurementMode] =
      applyEvent (animateTick { initState with measurementMode := true } 0 0)
        Event.toggleMeasurementMode := rfl
  rw [key,
    animateTick_running (s := { initState with measurementMode := true })
      0 0 rfl,
    renderUpdate_due (s := { initState with measurementMode := true })
      0 0 rfl hdue]
  refine ⟨rfl, ?_⟩
  simp [applyEvent, appendMeasurement, initState]

/-- Claim C3, amended: the measurement log is empty initially and after
`resetExperiment`, and no event appends to it while measurement mode is
inactive (each event either leaves the log unchanged or — for reset —
clears it).  Deactivating measurement mode, however, does not clear the
log, so a state with measurement mode inactive and a non-empty log is
reachable. -/
theorem measurements_static_while_inactive (s : SimState) (e : Event)
    (hv : validEvent e = true) (hm : s.measurementMode = false) :
    (applyEvent s e).measurements = s.measurements ∨
    (applyEvent s e).measurements = [] := by
  cases e
  case tick rand sinv =>
    left
    show (animateTick s rand sinv).measurements = s.measurements
    by_cases hr : s.isRunning = true
    · rw [animateTick_running rand sinv hr,
        renderUpdate_not_due rand sinv (by simp [hm])]
    · rw [animateTick_paused rand sinv (by simpa using hr)]
  case reset => right; rfl
  all_goals left; rfl

/-- Witness for the amended C3 theorem: a tick at the initial state (where
measurement mode is inactive) leaves the log unchanged. -/
theorem measurements_static_while_inactive_witness :
    (applyEvent initState (Event.tick 0 0)).measurements =
        initState.measurements ∨
    (applyEvent initState (Event.tick 0 0)).measurements = [] :=
  measurements_static_while_inactive initState (Event.tick 0 0) rfl rfl

/-- Claim C4: with at least two registered objects, `handleTeleport`
immediately sets `isTeleporting` on exactly the first two objects (positions
untouched) and schedules the commit after a fixed 800 ms delay; the commit
swaps the positions of exactly the first two objects and clears both
`isTeleporting` flags.  On the seeded objects P0 = (150, 200) and
P1 = (550, 300), the pending phase keeps the positions with both flags true,
and the commit yields P0 = (550, 300) and P1 = (150, 200) with both flags
false. -/
theorem teleport_two_phase (o0 o1 : QuantumObject)
    (rest : List QuantumObject) :
    handleTeleport (o0 :: o1 :: rest) =
      ({ o0 with isTeleporting := true } ::
        { o1 with isTeleporting := true } :: rest, some teleportDelayMs) ∧
    teleportDelayMs = 800 ∧
    teleportCommit (o0 :: o1 :: rest) =
      { o0 with x := o1.x, y := o1.y, isTeleporting := false } ::
      { o1 with x := o0.x, y := o0.y, isTeleporting := false } :: rest ∧
    (teleportPending [obj1Seed, obj2Seed]).map
        (fun o => (o.x, o.y, o.isTeleporting)) =
      [(150, 200, true), (550, 300, true)] ∧
    (teleportCommit [obj1Seed, obj2Seed]).map
        (fun o => (o.x, o.y, o.isTeleporting)) =
      [(550, 300, false), (150, 200, false)] := by
  refine ⟨?_, rfl, rfl, ?_, rfl⟩
  · rw [handleTeleport, if_neg (by simp), teleportPending_cons_cons]
  · rw [teleportPending_cons_cons]
    rfl

/-- Claim C5: one invocation of `animate` advances simulation time by the
fixed base increment 0.02 times the wave-speed factor while the simulation
is running, and leaves simulation time unchanged while it is paused. -/
theorem clock_tick_advance (s : SimState) (rand sinv : ℚ) :
    (applyEvent s (Event.tick rand sinv)).time =
      if s.isRunning then s.time + 0.02 * s.waveSpeed else s.time := by
  show (animateTick s rand sinv).time = _
  by_cases hr : s.isRunning = true
  · rw [animateTick_running rand sinv hr, if_pos hr]
  · have hr' : s.isRunning = false := by simpa using hr
    rw [animateTick_paused rand sinv hr', if_neg (by simp [hr'])]

/-- Claim C6: the transmission probability drawn by the tunneling overlay
and the one emitted by `runExperiment` agree and equal
`exp(-barrierHeight * 0.1)`; the probability is strictly monotonically
decreasing in the barrier height, and at `barrierHeight = 50` it equals
`exp(-5)`. -/
theorem tunnelingProb_spec :
    (∀ b : ℚ, runExperimentTunnelingProb b = drawTunnelingProb b ∧
      drawTunnelingProb b = Real.exp (-((b : ℝ) * 0.1))) ∧
    (∀ b1 b2 : ℚ, b1 < b2 → drawTunnelingProb b2 < drawTunnelingProb b1) ∧
    drawTunnelingProb 50 = Real.exp (-5) := by
  refine ⟨fun b => ⟨rfl, rfl⟩, fun b1 b2 h => ?_, ?_⟩
  · unfold drawTunnelingProb
    apply Real.exp_lt_exp.mpr
    have hb : (b1 : ℝ) < b2 := by exact_mod_cast h
    nlinarith
  · unfold drawTunnelingProb
    norm_num

/-- Witness for the C6 theorem: strict decrease from barrier height 10 to
100 (the slider endpoints). -/
theorem tunnelingProb_spec_witness :
    drawTunnelingProb 100 < drawTunnelingProb 10 :=
  tunnelingProb_spec.2.1 10 100 (by norm_num)

/-- Claim C7: in every state reachable by valid events, the measurement log
holds at most 20 entries and its entries are strictly ascending in
timestamp; and when the log already holds 20 entries, the append drops the
oldest entry first. -/
theorem measurementLog_bounded_and_sorted :
    (∀ tr : List Event, (∀ e ∈ tr, validEvent e = true) →
      (runEvents initState tr).measurements.length ≤ 20 ∧
      (runEvents initState tr).measurements.Pairwise
        (fun a b => a.timestamp < b.timestamp)) ∧
    ∀ (log : List Measurement) (m : Measurement), log.length = 20 →
      appendMeasurement log m = log.tail ++ [m] := by
  constructor
  · intro tr hv
    have h := logInv_runEvents tr initState hv logInv_initState
    exact ⟨h.2.1, h.2.2.1⟩
  · intro log m h20
    rw [appendMeasurement, h20, show 20 - 19 = 1 from rfl, List.drop_one]

/-- Witness for the C7 theorem: a trace that records one measurement, and a
full 20-entry log whose append drops the head. -/
theorem measurementLog_bounded_and_sorted_witness :
    (runEvents initState [Event.toggleMeasurementMode,
        Event.tick 0 0]).measurements.length ≤ 20 ∧
    appendMeasurement (List.replicate 20 ⟨0, 0, "teleportation"⟩)
        ⟨1, 0, "teleportation"⟩ =
      (List.replicate 20 (⟨0, 0, "teleportation"⟩ : Measurement)).tail ++
        [⟨1, 0, "teleportation"⟩] :=
  ⟨(measurementLog_bounded_and_sorted.1
      [Event.toggleMeasurementMode, Event.tick 0 0]
      (by simp [validEvent])).1,
   measurementLog_bounded_and_sorted.2 _ _ (by simp)⟩

/-- Claim C8: with fewer than two registered objects, `handleTeleport`
returns early: every registered object is unchanged in every field and no
deferred commit is scheduled. -/
theorem teleport_noop_when_fewer_than_two :
    handleTeleport ([] : List QuantumObject) = ([], none) ∧
    ∀ o : QuantumObject, handleTeleport [o] = ([o], none) :=
  ⟨rfl, fun _ => rfl⟩

/-- Claim C9: a canvas tap at canvas-logical coordinates `(x, y)` in
teleportation mode appends exactly one object, which sits at `(x, y)` with
`isEntangled = false` and no `entangledWith` reference; in every other
experiment mode a tap leaves the registry unchanged. -/
theorem canvasTap_adds_object (mode : ExperimentMode)
    (objs : List QuantumObject) (x y r1 r2 r3 : ℚ) (now : Nat) :
    handleCanvasClick ExperimentMode.teleportation objs x y r1 r2 r3 now =
      objs ++ [newTapObject x y r1 r2 r3 now] ∧
    (handleCanvasClick ExperimentMode.teleportation objs x y r1 r2 r3
      now).length = objs.length + 1 ∧
    (newTapObject x y r1 r2 r3 now).x = x ∧
    (newTapObject x y r1 r2 r3 now).y = y ∧
    (newTapObject x y r1 r2 r3 now).isEntangled = false ∧
    (newTapObject x y r1 r2 r3 now).entangledWith = none ∧
    (mode ≠ ExperimentMode.teleportation →
      handleCanvasClick mode objs x y r1 r2 r3 now = objs) := by
  refine ⟨rfl, ?_, rfl, rfl, rfl, rfl, ?_⟩
  · show (objs ++ [newTapObject x y r1 r2 r3 now]).length = objs.length + 1
    simp
  · intro h
    rw [handleCanvasClick, if_neg h]

/-- Witness for the C9 theorem: a tap at (300, 250) in interference mode
adds nothing; the same tap in teleportation mode grows the seeded registry
by one. -/
theorem canvasTap_adds_object_witness :
    handleCanvasClick ExperimentMode.interference initialObjects
        300 250 0 0 0 5 = initialObjects ∧
    (handleCanvasClick ExperimentMode.teleportation initialObjects
        300 250 0 0 0 5).length = initialObjects.length + 1 :=
  ⟨(canvasTap_adds_object ExperimentMode.interference initialObjects
      300 250 0 0 0 5).2.2.2.2.2.2 (by decide),
   (canvasTap_adds_object ExperimentMode.interference initialObjects
      300 250 0 0 0 5).2.1⟩

/-- Claim C10: the teleport commit changes only the `x`, `y` and
`isTeleporting` fields of the first two objects — their identity, wave
parameters and entanglement data are preserved — and every object beyond
the first two is unchanged in every field. -/
theorem teleportCommit_frame (o0 o1 : QuantumObject)
    (rest : List QuantumObject) :
    ∃ n0 n1, teleportCommit (o0 :: o1 :: rest) = n0 :: n1 :: rest ∧
      n0.x = o1.x ∧ n0.y = o1.y ∧ n0.isTeleporting = false ∧
      n0.id = o0.id ∧ n0.frequency = o0.frequency ∧ n0.phase = o0.phase ∧
      n0.amplitude = o0.amplitude ∧ n0.isEntangled = o0.isEntangled ∧
      n0.entangledWith = o0.entangledWith ∧
      n1.x = o0.x ∧ n1.y = o0.y ∧ n1.isTeleporting = false ∧
      n1.id = o1.id ∧ n1.frequency = o1.frequency ∧ n1.phase = o1.phase ∧
      n1.amplitude = o1.amplitude ∧ n1.isEntangled = o1.isEntangled ∧
      n1.entangledWith = o1.entangledWith := by
  refine ⟨_, _, rfl, ?_⟩
  repeat' apply And.intro
  all_goals rfl

end QuantumSim
